import Mathlib

/-!
Verification of the I/O relay subsystem (`util/io.go`, `util/file.go`)
and the vsock port allocator (`command` package) of the
firecracker-containerd agent client.

The Go code is shallowly embedded: each connector is represented by the
single result it eventually delivers on its channel, a channel is
represented by the list of values sent on it before it is closed, and the
scheduling nondeterminism of the two-way `select` fan-in is an explicit
`readerFirst : Bool` parameter.  Byte streams carry `Nat` bytes.
-/

/-- A Go `error` value: identified by its message (as produced by
`err.Error()`), which is all `util/io.go` ever inspects. -/
structure GoError where
  msg : String
deriving DecidableEq, Repr

/-- One end of a relayed stream (a `ReadWriteCloser` as the proxy uses it):
the bytes it yields when read until end-of-stream, the read error (if any)
delivered after those bytes (`none` = clean EOF), and the error returned by
its `Close` method. The write side is a capturing sink that accepts every
write, as the local file/terminal sinks of `util/file.go` do. -/
structure GoStream where
  content : List Nat
  readErr : Option GoError
  closeErr : Option GoError
deriving DecidableEq, Repr

/-- `IOConnectorResult` (util/io.go): the value a connector delivers on its
result channel.  In the Go struct the stream field is present in both the
success and the failure case; the proxy only stores it when `Err == nil`. -/
structure IOConnectorResult where
  stream : GoStream
  err : Option GoError
deriving DecidableEq, Repr

/-- `IOConnectorPair` (util/io.go).  A connector is embedded as the one
result it delivers; `ReadConnector`/`WriteConnector` keep the Go field
names. -/
structure IOConnectorPair where
  ReadConnector : IOConnectorResult
  WriteConnector : IOConnectorResult
deriving DecidableEq, Repr

/-- `time.Second` in nanoseconds (Go `time.Duration` units). -/
def timeSecond : Nat := 1000000000

/-- `defaultIOFlushTimeout = 5 * time.Second` (util/io.go). -/
def defaultIOFlushTimeout : Nat := 5 * timeSecond

/-- `defaultBufferSize = 1024` (util/io.go). -/
def defaultBufferSize : Nat := 1024

/-- `c :: as` starts with pattern `pat` (character-wise). -/
def listStartsWith : List Char → List Char → Bool
  | _, [] => true
  | [], _ :: _ => false
  | a :: as, b :: bs => a == b && listStartsWith as bs

/-- `strings.Contains s sub` (Go standard library): `sub` occurs as a
contiguous substring of `s`. -/
def listContainsSub : List Char → List Char → Bool
  | [], pat => pat.isEmpty
  | a :: as, pat => listStartsWith (a :: as) pat || listContainsSub as pat

/-- `strings.Contains` on strings. -/
def stringsContains (s sub : String) : Bool :=
  listContainsSub s.toList sub.toList

/-- The copy-error classification of util/io.go lines 158-159: errors whose
message contains `"use of closed network connection"` or
`"file already closed"` are logged at info level instead of error level. -/
def isBenignCopyErr (e : GoError) : Bool :=
  stringsContains e.msg "use of closed network connection" ||
    stringsContains e.msg "file already closed"

/-- `fmt.Errorf("error initializing io: %w", err)` (util/io.go line 131). -/
def wrapInitErr (e : GoError) : GoError :=
  ⟨"error initializing io: " ++ e.msg⟩

/-- The successive `Write` calls `io.CopyBuffer(writer, reader, buf)` makes
for a source whose pending bytes are `content`: each `Read` fills the
1024-byte buffer as far as the remaining content allows, and the bytes read
are written before the next read.  Fuel-indexed so the definition computes;
`content.length` fuel always suffices since every step consumes at least
one byte. -/
def copyWritesFuel : Nat → List Nat → List (List Nat)
  | 0, _ => []
  | _ + 1, [] => []
  | fuel + 1, a :: as =>
      (a :: as).take defaultBufferSize ::
        copyWritesFuel fuel ((a :: as).drop defaultBufferSize)

/-- The write calls of the copy loop on source bytes `content`. -/
def copyWrites (content : List Nat) : List (List Nat) :=
  copyWritesFuel content.length content

/-- `logClose` (util/io.go lines 174-190): close every non-nil stream and
aggregate the close errors with `multierror.Append` into one logged error.
The embedding returns the aggregated error as the list of its causes
(`none` when no close failed, so nothing is logged). -/
def logCloseAgg (streams : List (Option GoStream)) : Option (List GoError) :=
  let errs := streams.filterMap fun s => s.bind (·.closeErr)
  if errs.isEmpty then none else some errs

/-- State of the init fan-in loop of `proxy` (util/io.go lines 108-134):
the `reader`/`writer` locals (assigned only on a nil-error result), the
`ioInitErr` local, and the values sent on the `initDone` channel so far. -/
structure InitState where
  reader : Option GoStream
  writer : Option GoStream
  ioInitErr : Option GoError
  initSent : List GoError
deriving DecidableEq, Repr

/-- One iteration of the fan-in loop: consume one connector result.
`isReader = true` means the result came from `readerResultCh`. -/
def initStep (st : InitState) (isReader : Bool) (res : IOConnectorResult) :
    InitState :=
  match res.err with
  | none =>
      if isReader then { st with reader := some res.stream }
      else { st with writer := some res.stream }
  | some e =>
      let w := wrapInitErr e
      { st with ioInitErr := some w, initSent := st.initSent ++ [w] }

/-- The init fan-in loop, consuming both results in arrival order
(`readerFirst` resolves the `select` nondeterminism). -/
def initPhase (rRes wRes : IOConnectorResult) (readerFirst : Bool) :
    InitState :=
  let st0 : InitState := ⟨none, none, none, []⟩
  if readerFirst then initStep (initStep st0 true rRes) false wRes
  else initStep (initStep st0 false wRes) true rRes

/-- Everything observable about one run of `proxy` (util/io.go lines
87-171): the values sent on `initDone` and `copyDone` before each channel
was closed, whether the copy phase was entered, the bytes delivered to the
write stream, the non-nil streams handed to `logClose`, the aggregated
close error that `logClose` logged, the copy-error log entries by level,
and the `timeoutAfterExit` the run was configured with. -/
structure ProxyOutcome where
  initSent : List GoError
  copySent : List GoError
  copyEntered : Bool
  written : List Nat
  closedStreams : List GoStream
  closeLogged : Option (List GoError)
  copyInfoLogs : List GoError
  copyErrorLogs : List GoError
  timeoutAfterExit : Nat
deriving DecidableEq, Repr

/-- `(*IOConnectorPair).proxy` (util/io.go lines 87-171).  After the fan-in
loop, `initDone` is closed; on an init error the acquired streams are
closed and the goroutine returns with `copyDone` closed and empty.
Otherwise both connector results had nil errors, so the `reader`/`writer`
locals hold exactly the two delivered streams and the copy phase runs:
`io.CopyBuffer` relays the bytes of the reader, a terminating read error is
classified (benign disconnect patterns log at info level, others at error
level) and is sent on `copyDone`, and both streams are closed. -/
def proxy (pair : IOConnectorPair) (readerFirst : Bool)
    (timeoutAfterExit : Nat) : ProxyOutcome :=
  let st := initPhase pair.ReadConnector pair.WriteConnector readerFirst
  match st.ioInitErr with
  | some _ =>
      { initSent := st.initSent
        copySent := []
        copyEntered := false
        written := []
        closedStreams := [st.reader, st.writer].filterMap id
        closeLogged := logCloseAgg [st.reader, st.writer]
        copyInfoLogs := []
        copyErrorLogs := []
        timeoutAfterExit := timeoutAfterExit }
  | none =>
      let r := pair.ReadConnector.stream
      let w := pair.WriteConnector.stream
      { initSent := st.initSent
        copySent :=
          match r.readErr with
          | none => []
          | some e => [e]
        copyEntered := true
        written := (copyWrites r.content).flatten
        closedStreams := [r, w]
        closeLogged := logCloseAgg [some r, some w]
        copyInfoLogs :=
          match r.readErr with
          | none => []
          | some e => if isBenignCopyErr e then [e] else []
        copyErrorLogs :=
          match r.readErr with
          | none => []
          | some e => if isBenignCopyErr e then [] else [e]
        timeoutAfterExit := timeoutAfterExit }

/-- `ioConnectorSet` (util/io.go): up to three connector pairs and the
lock-protected `closed` flag. -/
structure ioConnectorSet where
  stdin : Option IOConnectorPair
  stdout : Option IOConnectorPair
  stderr : Option IOConnectorPair
  closed : Bool
deriving DecidableEq, Repr

/-- `NewIOConnectorProxy` (util/io.go lines 64-71). -/
def NewIOConnectorProxy (stdin stdout stderr : Option IOConnectorPair) :
    ioConnectorSet :=
  { stdin := stdin, stdout := stdout, stderr := stderr, closed := false }

/-- `(*ioConnectorSet).Close` (util/io.go lines 73-78): under the lock, set
`closed = true`. -/
def ioConnectorSet.Close (s : ioConnectorSet) : ioConnectorSet :=
  { s with closed := true }

/-- `(*ioConnectorSet).IsOpen` (util/io.go lines 80-85): under the lock,
return `!closed`. -/
def ioConnectorSet.IsOpen (s : ioConnectorSet) : Bool :=
  !s.closed

/-- A call against the lifecycle flag of the proxy set. -/
inductive SetOp where
  | close
  | isOpen
deriving DecidableEq, Repr

/-- Apply one lifecycle call to the set (`IsOpen` is a pure query). -/
def applyOp (s : ioConnectorSet) : SetOp → ioConnectorSet
  | SetOp.close => s.Close
  | SetOp.isOpen => s

/-- Apply a sequence of lifecycle calls, in order. -/
def applyOps (ops : List SetOp) (s : ioConnectorSet) : ioConnectorSet :=
  ops.foldl applyOp s

/-- A single receive on an error channel embedded as the list of values
sent before close: the first sent value, or `none` (Go `nil`) when the
channel was closed without a send. -/
def recvOne (sent : List GoError) : Option GoError :=
  sent.head?

/-- `errgroup.Group.Wait` over the given goroutine results, embedded
deterministically: the first non-nil error in the list, or `nil`. -/
def firstErr (outs : List (Option GoError)) : Option GoError :=
  (outs.filterMap id).head?

/-- The `ProxyOutcome`s of the configured streams, in the order `Start`
wires them up (stdin, stdout, stderr), each with the `timeoutAfterExit` it
is given there: 0 for stdin, `defaultIOFlushTimeout` for stdout/stderr.
The `Bool` arguments resolve the fan-in arrival order of each proxy. -/
def configuredProxies (s : ioConnectorSet) (schedIn schedOut schedErr : Bool) :
    List ProxyOutcome :=
  ([s.stdin.map fun p => proxy p schedIn 0,
    s.stdout.map fun p => proxy p schedOut defaultIOFlushTimeout,
    s.stderr.map fun p => proxy p schedErr defaultIOFlushTimeout]).filterMap id

/-- Everything observable about one run of `Start`: the per-stream proxy
outcomes (when configured) and the values sent on the two aggregate
channels before each was closed. -/
structure StartOutcome where
  stdinOut : Option ProxyOutcome
  stdoutOut : Option ProxyOutcome
  stderrOut : Option ProxyOutcome
  aggInitSent : List (Option GoError)
  aggCopySent : List (Option GoError)
deriving DecidableEq, Repr

/-- `(*ioConnectorSet).Start` (util/io.go lines 194-241): run a proxy per
configured pair (stdin with timeout 0, stdout/stderr with
`defaultIOFlushTimeout`); one errgroup goroutine per proxy performs a
single receive on its init channel and another on its copy channel; each
aggregate channel then receives the corresponding `Wait()` result once and
is closed. -/
def ioConnectorSet.Start (s : ioConnectorSet)
    (schedIn schedOut schedErr : Bool) : StartOutcome :=
  let outs := configuredProxies s schedIn schedOut schedErr
  { stdinOut := s.stdin.map fun p => proxy p schedIn 0
    stdoutOut := s.stdout.map fun p => proxy p schedOut defaultIOFlushTimeout
    stderrOut := s.stderr.map fun p => proxy p schedErr defaultIOFlushTimeout
    aggInitSent := [firstErr (outs.map fun o => recvOne o.initSent)]
    aggCopySent := [firstErr (outs.map fun o => recvOne o.copySent)] }

/-- An `*os.File` as the connector layer sees it: an identity and whether
it has been closed. -/
structure GoFile where
  fd : Nat
  closed : Bool
deriving DecidableEq, Repr

/-- `ReadWriteNopCloserWrapper` (util/file.go): wraps a file as both the
reader and the writer of a duplex stream. -/
structure ReadWriteNopCloserWrapper where
  Reader : GoFile
  Writer : GoFile
deriving DecidableEq, Repr

/-- `(*ReadWriteNopCloserWrapper).Close` (util/file.go lines 36-38):
returns nil and touches nothing — in particular the wrapped file is not
closed. The embedding returns the error and the wrapper state after the
call. -/
def ReadWriteNopCloserWrapper.Close (w : ReadWriteNopCloserWrapper) :
    Option GoError × ReadWriteNopCloserWrapper :=
  (none, w)

/-- The result value the connector of `FileConnector` sends. -/
structure FileConnectorResult where
  stream : ReadWriteNopCloserWrapper
  err : Option GoError
deriving DecidableEq, Repr

/-- `FileConnector` (util/file.go lines 40-54): the returned connector
sends exactly one result — the file wrapped in a
`ReadWriteNopCloserWrapper`, with a nil error — on a channel of capacity
1, then closes it.  Embedded as the list of results delivered. -/
def FileConnector (file : GoFile) : List FileConnectorResult :=
  [{ stream := { Reader := file, Writer := file }, err := none }]

/-- `minVsockIOPort = uint32(12000)` (command package). -/
def minVsockIOPort : Nat := 12000

/-- `math.MaxUint32`. -/
def maxUint32 : Nat := 2 ^ 32 - 1

/-- The mutable state of `ExecCmd` that `nextVSockPort` uses: the `uint32`
counter `vsockIOPortCount`, kept as a `Nat` reduced mod `2^32`. -/
structure ExecCmd where
  vsockIOPortCount : Nat
deriving DecidableEq, Repr

/-- `(*ExecCmd).nextVSockPort` (command package): computes
`minVsockIOPort + vsockIOPortCount` (uint32 arithmetic), panics when that
port equals `math.MaxUint32` (embedded as `none`), otherwise increments the
counter and returns the port with the new state. -/
def nextVSockPort (s : ExecCmd) : Option (Nat × ExecCmd) :=
  let port := (minVsockIOPort + s.vsockIOPortCount) % 2 ^ 32
  if port = maxUint32 then none
  else some (port, ⟨(s.vsockIOPortCount + 1) % 2 ^ 32⟩)

/-- The three `nextVSockPort` calls `Execute` makes to fill the `ExtraData` fields
`StdinPort`, `StdoutPort` and `StderrPort`, in that order; a panic in any
call aborts the whole computation. -/
def execPorts (s : ExecCmd) : Option (Nat × Nat × Nat × ExecCmd) :=
  match nextVSockPort s with
  | none => none
  | some (p1, s1) =>
      match nextVSockPort s1 with
      | none => none
      | some (p2, s2) =>
          match nextVSockPort s2 with
          | none => none
          | some (p3, s3) => some (p1, p2, p3, s3)

/-- `s` with its `Close`-method error replaced; the read data is kept. -/
def withCloseErr (s : GoStream) (c : Option GoError) : GoStream :=
  { s with closeErr := c }

/-- `p` with the close errors of its two streams replaced. -/
def withCloseErrs (p : IOConnectorPair) (cr cw : Option GoError) :
    IOConnectorPair :=
  { ReadConnector :=
      { p.ReadConnector with stream := withCloseErr p.ReadConnector.stream cr }
    WriteConnector :=
      { p.WriteConnector with
          stream := withCloseErr p.WriteConnector.stream cw } }

theorem copyWritesFuel_flatten (fuel : Nat) :
    ∀ content : List Nat, content.length ≤ fuel →
      (copyWritesFuel fuel content).flatten = content := by
  induction fuel with
  | zero =>
      intro content h
      have : content = [] := List.length_eq_zero.mp (Nat.le_zero.mp h)
      subst this
      rfl
  | succ n ih =>
      intro content h
      cases content with
      | nil => rfl
      | cons a as =>
          have hlen : ((a :: as).drop defaultBufferSize).length ≤ n := by
            simp only [List.length_drop, List.length_cons] at *
            simp only [defaultBufferSize]
            omega
          calc (copyWritesFuel (n + 1) (a :: as)).flatten
              = (a :: as).take defaultBufferSize ++
                  (copyWritesFuel n ((a :: as).drop defaultBufferSize)).flatten := by
                simp [copyWritesFuel]
            _ = (a :: as).take defaultBufferSize ++
                  (a :: as).drop defaultBufferSize := by
                rw [ih _ hlen]
            _ = a :: as := List.take_append_drop _ _

theorem copyWrites_flatten (content : List Nat) :
    (copyWrites content).flatten = content :=
  copyWritesFuel_flatten content.length content (Nat.le_refl _)

theorem proxy_timeoutAfterExit (p : IOConnectorPair) (o : Bool) (t : Nat) :
    (proxy p o t).timeoutAfterExit = t := by
  cases h : (initPhase p.ReadConnector p.WriteConnector o).ioInitErr <;>
    simp [proxy, h]

theorem applyOps_closed_mono (ops : List SetOp) :
    ∀ s : ioConnectorSet, s.closed = true → (applyOps ops s).closed = true := by
  induction ops with
  | nil => intro s hs; exact hs
  | cons op rest ih =>
      intro s hs
      cases op with
      | close => exact ih _ rfl
      | isOpen => exact ih _ hs

/-- Claim C5: for every read stream that yields a finite byte sequence
followed by end-of-stream, the copy phase writes exactly that byte
sequence, in order and without loss, to the write stream, and the
copy-done outcome is nil (no error is ever sent on `copyDone`). -/
theorem copy_relays_content_without_loss (content : List Nat)
    (rcl : Option GoError) (ws : GoStream) (o : Bool) (t : Nat) :
    (proxy ⟨⟨⟨content, none, rcl⟩, none⟩, ⟨ws, none⟩⟩ o t).written = content ∧
    (proxy ⟨⟨⟨content, none, rcl⟩, none⟩, ⟨ws, none⟩⟩ o t).copySent = [] ∧
    (proxy ⟨⟨⟨content, none, rcl⟩, none⟩, ⟨ws, none⟩⟩ o t).copyEntered
      = true := by
  cases o <;>
    simp [proxy, initPhase, initStep, copyWrites_flatten]

/-- Claim C7: `Close` sets the `closed` flag, repeated `Close` calls are
no-ops, the flag never resets to false under any sequence of lifecycle
calls, `IsOpen` returns the negation of the flag, and after any `Close`
call every subsequent `IsOpen` returns false. -/
theorem close_idempotent_isopen_negation (s : ioConnectorSet)
    (ops l1 l2 : List SetOp) :
    s.Close.closed = true ∧
    s.Close.Close = s.Close ∧
    s.IsOpen = !s.closed ∧
    (applyOps ops s.Close).closed = true ∧
    (applyOps (l1 ++ SetOp.close :: l2) s).IsOpen = false := by
  refine ⟨rfl, rfl, rfl, applyOps_closed_mono ops s.Close rfl, ?_⟩
  have h : applyOps (l1 ++ SetOp.close :: l2) s
      = applyOps l2 (applyOps l1 s).Close := by
    simp [applyOps, List.foldl_append, List.foldl_cons, applyOp]
  rw [h, ioConnectorSet.IsOpen, applyOps_closed_mono l2 (applyOps l1 s).Close rfl]
  rfl

/-- Claim C9: `FileConnector` delivers exactly one result on its channel,
the `Err` of that result is nil, and the `Close` method of the delivered stream
returns nil without closing (or otherwise changing) the underlying
file. -/
theorem fileconnector_one_nil_result_and_nop_close (f : GoFile) :
    FileConnector f = [{ stream := { Reader := f, Writer := f }, err := none }] ∧
    (FileConnector f).length = 1 ∧
    ReadWriteNopCloserWrapper.Close { Reader := f, Writer := f }
      = (none, { Reader := f, Writer := f }) := by
  exact ⟨rfl, rfl, rfl⟩

/-- Claim C6: `Start` runs the stdin proxy (if configured) with a
post-exit grace duration of 0, and the stdout and stderr proxies (if
configured) with the default grace duration `defaultIOFlushTimeout`, which
is 5 seconds. -/
theorem start_grace_durations (s : ioConnectorSet) (a b c : Bool) :
    (s.Start a b c).stdinOut.map (·.timeoutAfterExit)
      = s.stdin.map (fun _ => 0) ∧
    (s.Start a b c).stdoutOut.map (·.timeoutAfterExit)
      = s.stdout.map (fun _ => defaultIOFlushTimeout) ∧
    (s.Start a b c).stderrOut.map (·.timeoutAfterExit)
      = s.stderr.map (fun _ => defaultIOFlushTimeout) ∧
    defaultIOFlushTimeout = 5 * timeSecond := by
  refine ⟨?_, ?_, ?_, rfl⟩
  · cases h : s.stdin <;>
      simp [ioConnectorSet.Start, h, proxy_timeoutAfterExit]
  · cases h : s.stdout <;>
      simp [ioConnectorSet.Start, h, proxy_timeoutAfterExit]
  · cases h : s.stderr <;>
      simp [ioConnectorSet.Start, h, proxy_timeoutAfterExit]

/-- Claim C4: for every proxy set (0 to 3 configured pairs), `Start`
returns an aggregate-init channel and an aggregate-copy channel that each
deliver exactly one value before being closed, and the value delivered on
each is the first non-nil error among the corresponding outcomes of the
configured proxies (`firstErr`), or nil if none errored. -/
theorem start_aggregate_channels (s : ioConnectorSet) (a b c : Bool) :
    (s.Start a b c).aggInitSent.length = 1 ∧
    (s.Start a b c).aggCopySent.length = 1 ∧
    (s.Start a b c).aggInitSent =
      [firstErr ((([s.stdin.map fun p => proxy p a 0,
          s.stdout.map fun p => proxy p b defaultIOFlushTimeout,
          s.stderr.map fun p => proxy p c defaultIOFlushTimeout]).filterMap
            id).map fun o => recvOne o.initSent)] ∧
    (s.Start a b c).aggCopySent =
      [firstErr ((([s.stdin.map fun p => proxy p a 0,
          s.stdout.map fun p => proxy p b defaultIOFlushTimeout,
          s.stderr.map fun p => proxy p c defaultIOFlushTimeout]).filterMap
            id).map fun o => recvOne o.copySent)] := by
  exact ⟨rfl, rfl, rfl, rfl⟩

/-- Claim C3: whenever at least one connector of the pair fails during
init, any stream the other connector did successfully acquire is closed,
the copy phase is never entered, and `copyDone` is closed without ever
delivering an error value. -/
theorem init_failure_skips_copy_and_closes (rs ws : GoStream)
    (e1 e2 : GoError) (o : Bool) (t : Nat) :
    ((proxy ⟨⟨rs, none⟩, ⟨ws, some e2⟩⟩ o t).copyEntered = false ∧
      (proxy ⟨⟨rs, none⟩, ⟨ws, some e2⟩⟩ o t).copySent = [] ∧
      (proxy ⟨⟨rs, none⟩, ⟨ws, some e2⟩⟩ o t).closedStreams = [rs]) ∧
    ((proxy ⟨⟨rs, some e1⟩, ⟨ws, none⟩⟩ o t).copyEntered = false ∧
      (proxy ⟨⟨rs, some e1⟩, ⟨ws, none⟩⟩ o t).copySent = [] ∧
      (proxy ⟨⟨rs, some e1⟩, ⟨ws, none⟩⟩ o t).closedStreams = [ws]) ∧
    ((proxy ⟨⟨rs, some e1⟩, ⟨ws, some e2⟩⟩ o t).copyEntered = false ∧
      (proxy ⟨⟨rs, some e1⟩, ⟨ws, some e2⟩⟩ o t).copySent = [] ∧
      (proxy ⟨⟨rs, some e1⟩, ⟨ws, some e2⟩⟩ o t).closedStreams = []) := by
  cases o <;>
    simp [proxy, initPhase, initStep]

/-- Claim C1 (counterexample): a copy phase that terminates with the error
`"file already closed"` — a message the benign-disconnect classification
matches — still delivers that error on the copy-done channel of the proxy, so
the claim that such an error is never delivered there is false. -/
theorem benign_copy_error_is_delivered_counterexample :
    (proxy ⟨⟨⟨[], some ⟨"file already closed"⟩, none⟩, none⟩,
        ⟨⟨[], none, none⟩, none⟩⟩ true 0).copySent
      = [⟨"file already closed"⟩] ∧
    isBenignCopyErr ⟨"file already closed"⟩ = true := by
  exact ⟨by decide, by decide⟩

/-- Claim C1 (amended): a copy error whose message matches the benign
patterns is logged at info level (`"connection was closed"`) instead of
error level, but — like every other copy error — it is still sent on the
copy-done channel. -/
theorem benign_copy_error_logged_info_still_sent (content : List Nat)
    (e : GoError) (rcl : Option GoError) (ws : GoStream) (o : Bool)
    (t : Nat) :
    (proxy ⟨⟨⟨content, some e, rcl⟩, none⟩, ⟨ws, none⟩⟩ o t).copySent
      = [e] ∧
    (proxy ⟨⟨⟨content, some e, rcl⟩, none⟩, ⟨ws, none⟩⟩ o t).copyInfoLogs
      = (if isBenignCopyErr e then [e] else []) ∧
    (proxy ⟨⟨⟨content, some e, rcl⟩, none⟩, ⟨ws, none⟩⟩ o t).copyErrorLogs
      = (if isBenignCopyErr e then [] else [e]) := by
  cases o <;>
    simp [proxy, initPhase, initStep]

/-- Claim C2 (counterexample): when both connectors of the pair fail, two
error values are sent on the init-done channel before it is closed, so the
claim that at most one error is ever delivered on that channel is
false. -/
theorem both_init_errors_sent_counterexample :
    (proxy ⟨⟨⟨[], none, none⟩, some ⟨"dial a"⟩⟩,
        ⟨⟨[], none, none⟩, some ⟨"dial b"⟩⟩⟩ true 0).initSent
      = [⟨"error initializing io: dial a"⟩,
         ⟨"error initializing io: dial b"⟩] ∧
    2 ≤ (proxy ⟨⟨⟨[], none, none⟩, some ⟨"dial a"⟩⟩,
        ⟨⟨[], none, none⟩, some ⟨"dial b"⟩⟩⟩ true 0).initSent.length := by
  exact ⟨by decide, by decide⟩

/-- Claim C2 (amended): the init phase sends one wrapped error on the
init-done channel per failing connector, in arrival order — so up to two
errors when both fail — and then closes the channel; a consumer that
performs a single receive observes the first error seen (or nil when no
connector failed). -/
theorem init_error_per_failing_connector (r w : IOConnectorResult)
    (o : Bool) (t : Nat) :
    (proxy ⟨r, w⟩ o t).initSent =
      ((if o then [r.err, w.err] else [w.err, r.err]).filterMap id).map
        wrapInitErr ∧
    (proxy ⟨r, w⟩ o t).initSent.length ≤ 2 ∧
    recvOne (proxy ⟨r, w⟩ o t).initSent =
      ((if o then [r.err, w.err] else [w.err, r.err]).filterMap
        id).head?.map wrapInitErr := by
  obtain ⟨rs, re⟩ := r
  obtain ⟨ws, we⟩ := w
  cases o <;> cases re <;> cases we <;>
    simp [proxy, initPhase, initStep, recvOne]

/-- Claim C8: close errors raised while shutting streams down are
aggregated into a single logged error — `closeLogged` is exactly the
aggregation of the close errors of the streams the proxy closed — and
they never influence what is delivered on the init-done or copy-done
channel: replacing the close errors of both streams leaves `initSent` and
`copySent` unchanged. -/
theorem close_errors_logged_never_delivered (p : IOConnectorPair)
    (cr cw : Option GoError) (o : Bool) (t : Nat) :
    (proxy (withCloseErrs p cr cw) o t).initSent = (proxy p o t).initSent ∧
    (proxy (withCloseErrs p cr cw) o t).copySent = (proxy p o t).copySent ∧
    (proxy p o t).closeLogged
      = logCloseAgg ((proxy p o t).closedStreams.map some) := by
  obtain ⟨⟨rs, re⟩, ⟨ws, we⟩⟩ := p
  cases o <;> cases re <;> cases we <;>
    simp [proxy, initPhase, initStep, withCloseErrs, withCloseErr,
      logCloseAgg] <;>
  cases h : rs.closeErr <;> simp [h]

theorem nextVSockPort_eq (c : Nat) :
    nextVSockPort ⟨c⟩ =
      if (12000 + c) % 4294967296 = 4294967295 then none
      else some ((12000 + c) % 4294967296, ⟨(c + 1) % 4294967296⟩) := by
  simp only [nextVSockPort, minVsockIOPort, maxUint32]
  norm_num

/-- Claim C10: `nextVSockPort` returns `minVsockIOPort` plus the current
counter (uint32 arithmetic) and increments the counter, so the three ports
`Execute` places into `ExtraData` (StdinPort, StdoutPort, StderrPort) are
three consecutive strictly increasing values, the first exec using 12000,
12001, 12002; when the computed port equals `2^32 - 1` the call panics
(embedded as `none`) instead of returning. -/
theorem nextvsockport_consecutive_ports (c : Nat) :
    execPorts ⟨0⟩ = some (12000, 12001, 12002, ⟨3⟩) ∧
    ((minVsockIOPort + c) % 2 ^ 32 = maxUint32 → nextVSockPort ⟨c⟩ = none) ∧
    ∀ p1 p2 p3 s3, execPorts ⟨c⟩ = some (p1, p2, p3, s3) →
      p1 = (minVsockIOPort + c) % 2 ^ 32 ∧ p2 = p1 + 1 ∧ p3 = p2 + 1 := by
  refine ⟨by decide, ?_, ?_⟩
  · intro h
    have h1 : (12000 + c) % 4294967296 = 4294967295 := by
      norm_num [minVsockIOPort, maxUint32] at h
      exact h
    rw [nextVSockPort_eq, if_pos h1]
  · intro p1 p2 p3 s3 h
    simp only [execPorts] at h
    rw [nextVSockPort_eq] at h
    by_cases h1 : (12000 + c) % 4294967296 = 4294967295
    · rw [if_pos h1] at h
      simp at h
    · rw [if_neg h1] at h
      dsimp only at h
      rw [nextVSockPort_eq] at h
      by_cases h2 : (12000 + (c + 1) % 4294967296) % 4294967296
          = 4294967295
      · rw [if_pos h2] at h
        simp at h
      · rw [if_neg h2] at h
        dsimp only at h
        rw [nextVSockPort_eq] at h
        by_cases h3 :
            (12000 + ((c + 1) % 4294967296 + 1) % 4294967296) % 4294967296
              = 4294967295
        · rw [if_pos h3] at h
          simp at h
        · rw [if_neg h3] at h
          simp only [Option.some.injEq, Prod.mk.injEq] at h
          obtain ⟨hp1, hp2, hp3, _⟩ := h
          norm_num [minVsockIOPort]
          refine ⟨?_, ?_, ?_⟩ <;> omega

/-- Witness for `nextvsockport_consecutive_ports`: the hypotheses are
satisfiable, at counter 0 in particular. -/
theorem nextvsockport_consecutive_ports_witness :
    execPorts ⟨0⟩ = some (12000, 12001, 12002, ⟨3⟩) ∧
    (12000 = (minVsockIOPort + 0) % 2 ^ 32 ∧ 12001 = 12000 + 1 ∧
      12002 = 12001 + 1) ∧
    nextVSockPort ⟨2 ^ 32 - 12001⟩ = none := by
  refine ⟨(nextvsockport_consecutive_ports 0).1, ?_, ?_⟩
  · exact (nextvsockport_consecutive_ports 0).2.2
      12000 12001 12002 ⟨3⟩ (by decide)
  · exact (nextvsockport_consecutive_ports (2 ^ 32 - 12001)).2.1 (by decide)
